import Mathlib

/-!
Verification of the scan pipeline of `indian-stock-agent`.

The Python sources are shallowly embedded: dataframes become lists of
rational numbers per column (a column that may be absent is an `Option`),
Python floats become exact rationals, and functions that may return `None`
return `Option`.  Each definition mirrors the function of the same name in
the repository; file and line references in the doc comments point at the
source.
-/

namespace StockAgent

/-- config.py, `INDICATORS` (only the fields the embedded functions read). -/
structure IndicatorsConfig where
  ema_short : Nat
  ema_medium : Nat
  ema_long : Nat
  rsi_period : Nat
  atr_period : Nat
  volume_sma : Nat

/-- config.py, `INDICATORS` defaults. -/
def INDICATORS : IndicatorsConfig :=
  { ema_short := 20, ema_medium := 50, ema_long := 200,
    rsi_period := 14, atr_period := 14, volume_sma := 20 }

/-- config.py, `SETUP_RULES`. -/
structure SetupRules where
  price_above_ema : List Nat
  volume_spike_multiplier : ℚ
  rsi_min : ℚ
  rsi_max : ℚ
  min_atr_percent : ℚ
  breakout_lookback : Nat
  pullback_tolerance_percent : ℚ
  consolidation_range_percent : ℚ
  consolidation_periods : Nat
  momentum_bars : Nat

/-- config.py, `SETUP_RULES` defaults. -/
def SETUP_RULES : SetupRules :=
  { price_above_ema := [50, 200], volume_spike_multiplier := 3/2,
    rsi_min := 55, rsi_max := 70, min_atr_percent := 1,
    breakout_lookback := 20, pullback_tolerance_percent := 2,
    consolidation_range_percent := 5, consolidation_periods := 10,
    momentum_bars := 3 }

/-- config.py, `RISK_CONFIG`. -/
structure RiskConfig where
  default_account_size : ℚ
  risk_per_trade_percent : ℚ
  max_position_percent : ℚ
  stop_loss_atr_multiplier : ℚ
  stop_loss_min_percent : ℚ
  stop_loss_max_percent : ℚ
  target_ratios : List ℚ
  entry_range_percent : ℚ

/-- config.py, `RISK_CONFIG` defaults. -/
def RISK_CONFIG : RiskConfig :=
  { default_account_size := 1000000, risk_per_trade_percent := 2,
    max_position_percent := 20, stop_loss_atr_multiplier := 2,
    stop_loss_min_percent := 2, stop_loss_max_percent := 8,
    target_ratios := [2, 3], entry_range_percent := 1 }

/-- config.py, `DATA_CONFIG` (retry and cache fields). -/
structure DataConfig where
  lookback_days : Nat
  cache_ttl_daily : ℚ
  cache_ttl_weekly : ℚ
  max_retries : Nat
  retry_delay : ℚ
  retry_backoff : ℚ
  requests_per_second : ℚ

/-- config.py, `DATA_CONFIG` defaults. -/
def DATA_CONFIG : DataConfig :=
  { lookback_days := 365, cache_ttl_daily := 86400, cache_ttl_weekly := 604800,
    max_retries := 3, retry_delay := 2, retry_backoff := 2,
    requests_per_second := 2 }

/-- A pandas dataframe as the pipeline consumes it: the mandatory OHLCV
columns as equal-length lists (row 0 oldest, last row = latest bar), and the
indicator columns added by indicators.py, each `none` when the column is
absent.  `EMA` maps a period to the `EMA_{period}` column. -/
structure Df where
  Open : List ℚ
  High : List ℚ
  Low : List ℚ
  Close : List ℚ
  Volume : List ℚ
  EMA : Nat → Option (List ℚ)
  RSI_14 : Option (List ℚ) := none
  ATR_14 : Option (List ℚ) := none
  ATR_Percent : Option (List ℚ) := none
  Volume_Ratio : Option (List ℚ) := none
  MACD_histogram : Option (List ℚ) := none
  Rolling_High_20 : Option (List ℚ) := none
  Higher_High : Option (List Bool) := none
  Higher_Low : Option (List Bool) := none

/-- `column.iloc[-1]` — the latest bar's value (0 when out of range, a case
the sources guard against by length checks). -/
def lastD (xs : List ℚ) : ℚ := xs.getLastD 0

/-- `column.iloc[-k]` for `k ≥ 1` (0 when out of range). -/
def ilocNeg (xs : List ℚ) (k : Nat) : ℚ := xs.getD (xs.length - k) 0

/-- `df.tail(n)` — the last `n` rows. -/
def pyTail (xs : List α) (n : Nat) : List α := xs.drop (xs.length - n)

/-- `column.max()` over a nonempty column (0 on an empty one). -/
def pyMax (xs : List ℚ) : ℚ := xs.foldl max (xs.headD 0)

/-- `column.min()` over a nonempty column (0 on an empty one). -/
def pyMin (xs : List ℚ) : ℚ := xs.foldl min (xs.headD 0)

/-- Python `int(q)` truncates toward zero. -/
def pyInt (q : ℚ) : ℤ := if q < 0 then -⌊-q⌋ else ⌊q⌋

/-!  ## Risk engine (src/agent/risk.py)  -/

/-- risk.py lines 117-158, `calculate_stop_loss`.  The dataframe enters only
through the presence and latest value of its `ATR_14` column. -/
def calculate_stop_loss (df : Df) (entry_price : ℚ) : ℚ :=
  match df.ATR_14 with
  | none => entry_price * (1 - RISK_CONFIG.stop_loss_min_percent / 100)
  | some atr_col =>
    let atr_value := lastD atr_col
    let atr_multiplier := RISK_CONFIG.stop_loss_atr_multiplier
    let stop_loss_atr := entry_price - atr_multiplier * atr_value
    let stop_loss_percent := ((entry_price - stop_loss_atr) / entry_price) * 100
    let min_stop_pct := RISK_CONFIG.stop_loss_min_percent
    let max_stop_pct := RISK_CONFIG.stop_loss_max_percent
    if stop_loss_percent < min_stop_pct then
      entry_price * (1 - min_stop_pct / 100)
    else if stop_loss_percent > max_stop_pct then
      entry_price * (1 - max_stop_pct / 100)
    else
      stop_loss_atr

/-- risk.py lines 161-176, `calculate_entry_range`. -/
def calculate_entry_range (current_price : ℚ) : ℚ × ℚ :=
  let range_pct := RISK_CONFIG.entry_range_percent / 100
  (current_price * (1 - range_pct), current_price * (1 + range_pct))

/-- risk.py lines 179-197, `calculate_targets`. -/
def calculate_targets (entry_price stop_loss : ℚ) : List ℚ :=
  let risk := entry_price - stop_loss
  RISK_CONFIG.target_ratios.map (fun ratio => entry_price + risk * ratio)

/-- risk.py lines 200-244, `calculate_position_size`: (integer shares,
position value). -/
def calculate_position_size (account_size entry_price stop_loss : ℚ) : ℤ × ℚ :=
  let max_risk_amount := account_size * (RISK_CONFIG.risk_per_trade_percent / 100)
  let risk_per_share := entry_price - stop_loss
  if risk_per_share ≤ 0 then (0, 0)
  else
    let position_size := max_risk_amount / risk_per_share
    let position_value := position_size * entry_price
    let max_position_value := account_size * (RISK_CONFIG.max_position_percent / 100)
    let capped :=
      if position_value > max_position_value then
        (max_position_value / entry_price, max_position_value)
      else (position_size, position_value)
    let shares := pyInt capped.1
    (shares, (shares : ℚ) * entry_price)

/-- The raw position size computed at risk.py line 227
(`max_risk_amount / risk_per_share`), before the max-position cap and the
integer truncation are applied. -/
def position_size_before_cap (account_size entry_price stop_loss : ℚ) : ℚ :=
  account_size * (RISK_CONFIG.risk_per_trade_percent / 100) / (entry_price - stop_loss)

/-- risk.py lines 247-263, `validate_risk_reward`. -/
def validate_risk_reward (risk_reward_ratio : ℚ) : Bool :=
  let min_rr := (RISK_CONFIG.target_ratios.min?).getD 0
  if risk_reward_ratio < min_rr then false else true

/-- A detected setup record (the dict built by the detectors in
setup_detector.py).  Keys a given setup type does not populate keep the
default 0 / empty; the detection date is not modelled. -/
structure Setup where
  symbol : String
  setup_type : String
  timeframe : String
  current_price : ℚ
  trigger_price : ℚ := 0
  breakout_percent : ℚ := 0
  volume_ratio : ℚ := 0
  distance_from_ema : ℚ := 0
  ema_value : ℚ := 0
  price_change_percent : ℚ := 0
  higher_highs : ℤ := 0
  higher_lows : ℤ := 0
  macd_histogram : ℚ := 0
  consolidation_high : ℚ := 0
  consolidation_low : ℚ := 0
  range_percent : ℚ := 0
  conditions_met : List String := []
  setup_score : ℚ := 0

/-- An LLM evaluation record, restricted to the keys the risk stage reads
(graph.py lines 218-225). -/
structure Evaluation where
  symbol : String
  setup_type : String

/-- The metrics dict returned by risk.py `calculate_risk_metrics`. -/
structure RiskMetrics where
  symbol : String
  entry_range_low : ℚ
  entry_range_high : ℚ
  entry_mid : ℚ
  stop_loss : ℚ
  target_1 : ℚ
  target_2 : ℚ
  risk_amount : ℚ
  reward_amount : ℚ
  risk_reward_ratio : ℚ
  risk_percent : ℚ
  position_size : ℤ
  position_value : ℚ
  max_loss : ℚ
  max_loss_percent : ℚ
  potential_gain_1 : ℚ
  potential_gain_2 : ℚ

/-- risk.py lines 16-114, `calculate_risk_metrics`.  `evaluation` is a
parameter the source never reads; `account_size = none` selects the
configured default. -/
def calculate_risk_metrics (symbol : String) (setup : Setup)
    (evaluation : Evaluation) (df : Df) (account_size : Option ℚ) : RiskMetrics :=
  let account := account_size.getD RISK_CONFIG.default_account_size
  let current_price := setup.current_price
  let stop_loss := calculate_stop_loss df current_price
  let entry := calculate_entry_range current_price
  let entry_low := entry.1
  let entry_high := entry.2
  let entry_mid := (entry_low + entry_high) / 2
  let targets := calculate_targets entry_mid stop_loss
  let target_1 := targets.getD 0 0
  let target_2 := if targets.length > 1 then targets.getD 1 0 else target_1
  let risk_amount := entry_mid - stop_loss
  let reward_amount := target_1 - entry_mid
  let rr := if risk_amount > 0 then reward_amount / risk_amount else 0
  let pos := calculate_position_size account entry_mid stop_loss
  let position_size := pos.1
  let position_value := pos.2
  let risk_percent := (risk_amount / entry_mid) * 100
  let max_loss := (position_size : ℚ) * risk_amount
  let max_loss_percent := (max_loss / account) * 100
  { symbol := symbol, entry_range_low := entry_low, entry_range_high := entry_high,
    entry_mid := entry_mid, stop_loss := stop_loss,
    target_1 := target_1, target_2 := target_2,
    risk_amount := risk_amount, reward_amount := reward_amount,
    risk_reward_ratio := rr, risk_percent := risk_percent,
    position_size := position_size, position_value := position_value,
    max_loss := max_loss, max_loss_percent := max_loss_percent,
    potential_gain_1 := (target_1 - entry_mid) * (position_size : ℚ),
    potential_gain_2 :=
      if targets.length > 1 then (target_2 - entry_mid) * (position_size : ℚ) else 0 }

/-!  ## Setup detector (src/agent/setup_detector.py)  -/

/-- setup_detector.py, `SetupType.BREAKOUT`. -/
def SetupType.BREAKOUT : String := "BREAKOUT"

/-- setup_detector.py, `SetupType.PULLBACK`. -/
def SetupType.PULLBACK : String := "PULLBACK"

/-- setup_detector.py, `SetupType.MOMENTUM`. -/
def SetupType.MOMENTUM : String := "MOMENTUM"

/-- setup_detector.py, `SetupType.CONSOLIDATION`. -/
def SetupType.CONSOLIDATION : String := "CONSOLIDATION"

/-- The result dict of `check_baseline_filters`. -/
structure BaselineResult where
  passed : Bool
  failures : List String

/-- setup_detector.py lines 88-130, `check_baseline_filters`.  Each failure
string keeps the constant prefix of the Python message; the interpolated
numeric suffix is elided. -/
def check_baseline_filters (df : Df) : BaselineResult :=
  let failures : List String := []
  -- Filter 1: price above each configured EMA, when the column is present
  let failures := SETUP_RULES.price_above_ema.foldl (fun fs ema_period =>
    match df.EMA ema_period with
    | some ema_col =>
      if lastD df.Close > lastD ema_col then fs else fs ++ ["price_below_ema"]
    | none => fs) failures
  -- Filter 2: RSI in valid range, when the column is present
  let failures := match df.RSI_14 with
    | some rsi_col =>
      let rsi_value := lastD rsi_col
      if SETUP_RULES.rsi_min ≤ rsi_value ∧ rsi_value ≤ SETUP_RULES.rsi_max then
        failures
      else failures ++ ["rsi_out_of_range"]
    | none => failures
  -- Filter 3: minimum ATR percent, when both ATR columns are present
  let failures := match df.ATR_14, df.ATR_Percent with
    | some _, some atrp_col =>
      if lastD atrp_col < SETUP_RULES.min_atr_percent then
        failures ++ ["atr_too_low"]
      else failures
    | _, _ => failures
  -- Filter 4: volume spike, when the column is present
  let failures := match df.Volume_Ratio with
    | some vr_col =>
      if lastD vr_col < SETUP_RULES.volume_spike_multiplier then
        failures ++ ["volume_low"]
      else failures
    | none => failures
  { passed := failures.isEmpty, failures := failures }

/-- setup_detector.py lines 320-360, `calculate_setup_score` (the
`setup_type` argument is never read by the source either). -/
def calculate_setup_score (df : Df) (setup_type : String) : ℚ :=
  let score : ℚ := 50
  let score := match df.Volume_Ratio with
    | some vr_col => score + min (lastD vr_col * 10) 20
    | none => score
  let score :=
    match df.EMA INDICATORS.ema_short, df.EMA INDICATORS.ema_medium,
        df.EMA INDICATORS.ema_long with
    | some e20, some e50, some e200 =>
      if lastD e20 > lastD e50 ∧ lastD e50 > lastD e200 then score + 20
      else if lastD e20 > lastD e50 then score + 10
      else score
    | _, _, _ => score
  let score := match df.RSI_14 with
    | some rsi_col =>
      let rsi := lastD rsi_col
      if 60 ≤ rsi ∧ rsi ≤ 70 then score + 10
      else if 55 ≤ rsi ∧ rsi ≤ 75 then score + 5
      else score
    | none => score
  let score := match df.MACD_histogram with
    | some mh_col => if lastD mh_col > 0 then score + 10 else score
    | none => score
  min score 100

/-- setup_detector.py lines 133-173, `detect_breakout`. -/
def detect_breakout (symbol : String) (df : Df) (timeframe : String) : Option Setup :=
  match df.Rolling_High_20 with
  | none => none
  | some rh_col =>
    let recent_high := ilocNeg rh_col 2
    let current_close := lastD df.Close
    if current_close ≤ recent_high then none
    else
      match df.Volume_Ratio with
      | none => none
      | some vr_col =>
        if lastD vr_col < 13/10 then none
        else
          let breakout_percent := ((current_close - recent_high) / recent_high) * 100
          some { symbol := symbol, setup_type := SetupType.BREAKOUT,
                 timeframe := timeframe, current_price := current_close,
                 trigger_price := recent_high, breakout_percent := breakout_percent,
                 volume_ratio := lastD vr_col,
                 conditions_met := ["price_above_ema", "volume_spike", "breakout_confirmed"],
                 setup_score := calculate_setup_score df SetupType.BREAKOUT }

/-- setup_detector.py lines 176-221, `detect_pullback`. -/
def detect_pullback (symbol : String) (df : Df) (timeframe : String) : Option Setup :=
  match df.EMA INDICATORS.ema_medium with
  | none => none
  | some ema_col =>
    let ema_50 := lastD ema_col
    let current_close := lastD df.Close
    let distance_from_ema := ((current_close - ema_50) / ema_50) * 100
    let tolerance := SETUP_RULES.pullback_tolerance_percent
    if -tolerance ≤ distance_from_ema ∧ distance_from_ema ≤ tolerance then
      let recent_bars := pyTail df.Close 5
      if ilocNeg recent_bars 2 < ilocNeg recent_bars 5 then
        if lastD df.Low > ema_50 * (101/100) then none
        else
          some { symbol := symbol, setup_type := SetupType.PULLBACK,
                 timeframe := timeframe, current_price := current_close,
                 trigger_price := ema_50, distance_from_ema := distance_from_ema,
                 ema_value := ema_50,
                 conditions_met := ["price_near_ema50", "pullback_structure", "potential_bounce"],
                 setup_score := calculate_setup_score df SetupType.PULLBACK }
      else none
    else none

/-- `column.tail(n).sum()` for a boolean column: how many of the last `n`
bars are `true`. -/
def countTrue (xs : List Bool) (n : Nat) : Nat := ((pyTail xs n).filter id).length

/-- setup_detector.py lines 224-267, `detect_momentum`. -/
def detect_momentum (symbol : String) (df : Df) (timeframe : String) : Option Setup :=
  let momentum_bars := SETUP_RULES.momentum_bars
  match df.Higher_High, df.Higher_Low with
  | some hh_col, some hl_col =>
    let higher_highs_count := countTrue hh_col momentum_bars
    let higher_lows_count := countTrue hl_col momentum_bars
    if higher_highs_count < 2 ∨ higher_lows_count < 2 then none
    else if (match df.MACD_histogram with
             | some mh_col => decide (lastD mh_col ≤ 0)
             | none => false) then none
    else
      let base := ilocNeg df.Close momentum_bars
      let price_change := ((lastD df.Close - base) / base) * 100
      some { symbol := symbol, setup_type := SetupType.MOMENTUM,
             timeframe := timeframe, current_price := lastD df.Close,
             price_change_percent := price_change,
             higher_highs := (higher_highs_count : ℤ),
             higher_lows := (higher_lows_count : ℤ),
             macd_histogram := (match df.MACD_histogram with
                                | some mh_col => lastD mh_col
                                | none => 0),
             conditions_met := ["higher_highs", "higher_lows", "macd_positive"],
             setup_score := calculate_setup_score df SetupType.MOMENTUM }
  | _, _ => none

/-- setup_detector.py lines 270-317, `detect_consolidation_breakout`.  The
row count `len(df)` is the length of the `Close` column. -/
def detect_consolidation_breakout (symbol : String) (df : Df) (timeframe : String) :
    Option Setup :=
  let periods := SETUP_RULES.consolidation_periods
  let range_pct := SETUP_RULES.consolidation_range_percent
  if df.Close.length < periods + 5 then none
  else
    -- df.tail(periods + 1).iloc[:-1] : the window excludes the current bar
    let cw_high := (pyTail df.High (periods + 1)).dropLast
    let cw_low := (pyTail df.Low (periods + 1)).dropLast
    let high_in_range := pyMax cw_high
    let low_in_range := pyMin cw_low
    let price_range := ((high_in_range - low_in_range) / low_in_range) * 100
    if price_range > range_pct then none
    else if lastD df.Close ≤ high_in_range then none
    else if (match df.Volume_Ratio with
             | some vr_col => decide (lastD vr_col < 12/10)
             | none => false) then none
    else
      some { symbol := symbol, setup_type := SetupType.CONSOLIDATION,
             timeframe := timeframe, current_price := lastD df.Close,
             consolidation_high := high_in_range, consolidation_low := low_in_range,
             range_percent := price_range,
             breakout_percent := ((lastD df.Close - high_in_range) / high_in_range) * 100,
             conditions_met := ["tight_consolidation", "breakout_confirmed", "volume_spike"],
             setup_score := calculate_setup_score df SetupType.CONSOLIDATION }

/-- setup_detector.py lines 26-85, `detect_setups`. -/
def detect_setups (symbol : String) (df : Df) (timeframe : String) : List Setup :=
  if df.Close.length < 50 then []
  else
    let baseline_checks := check_baseline_filters df
    if baseline_checks.passed then
      (detect_breakout symbol df timeframe).toList ++
      (detect_pullback symbol df timeframe).toList ++
      (detect_momentum symbol df timeframe).toList ++
      (detect_consolidation_breakout symbol df timeframe).toList
    else []

/-!  ## Acquisition coordinator (src/agent/data_fetcher.py)

The two source adapters do network I/O, so they are abstracted as inputs:
`fetch i` is what the adapter returns on its attempt number `i`.  The retry
loop records the attempts made and the sleeps performed so that the timing
discipline of the source can be stated. -/

/-- The observable outcome of one `for attempt in range(max_retries)` retry
loop of `fetch_market_data`: the fetched value if any, how many adapter
calls were made, and the sleep durations performed between consecutive
attempts (in order). -/
structure RetryOutcome (α : Type) where
  result : Option α
  attempts : Nat
  sleeps : List ℚ
  deriving Repr

/-- data_fetcher.py lines 291-300 / 304-312: the retry loop, entered at
attempt number `attempt`.  A successful attempt returns at once; a failed
one sleeps `retry_delay * backoff ^ attempt` unless it was the last. -/
def retry_loop (fetch : Nat → Option α) (max_retries : Nat)
    (retry_delay backoff : ℚ) (attempt : Nat) : RetryOutcome α :=
  if attempt < max_retries then
    match fetch attempt with
    | some df => { result := some df, attempts := 1, sleeps := [] }
    | none =>
      let rest := retry_loop fetch max_retries retry_delay backoff (attempt + 1)
      if attempt < max_retries - 1 then
        { result := rest.result, attempts := rest.attempts + 1,
          sleeps := retry_delay * backoff ^ attempt :: rest.sleeps }
      else
        { result := rest.result, attempts := rest.attempts + 1, sleeps := rest.sleeps }
  else { result := none, attempts := 0, sleeps := [] }
termination_by max_retries - attempt

/-- What `fetch_market_data` returns and what it did to the two adapters. -/
structure FetchOutcome (α : Type) where
  result : Option α
  source : String
  primary : RetryOutcome α
  fallback : RetryOutcome α

/-- data_fetcher.py lines 251-315, `fetch_market_data`.  `cached` is what the
`get_cached_data` lookup would return; the write-through `cache_data` call on
success is a store effect modelled separately below. -/
def fetch_market_data (cached : Option α) (use_cache : Bool)
    (primary fallback : Nat → Option α) (max_retries : Nat)
    (retry_delay backoff : ℚ) : FetchOutcome α :=
  match (if use_cache then cached else none) with
  | some df =>
    { result := some df, source := "cache",
      primary := ⟨none, 0, []⟩, fallback := ⟨none, 0, []⟩ }
  | none =>
    let p := retry_loop primary max_retries retry_delay backoff 0
    match p.result with
    | some df =>
      { result := some df, source := "jugaad", primary := p, fallback := ⟨none, 0, []⟩ }
    | none =>
      let f := retry_loop fallback max_retries retry_delay backoff 0
      match f.result with
      | some df => { result := some df, source := "yfinance", primary := p, fallback := f }
      | none => { result := none, source := "none", primary := p, fallback := f }

/-!  ## Cache store (src/agent/data_fetcher.py lines 29-110)

The sqlite table `market_data_cache` keyed by (symbol, timeframe,
fetch_date); times are rational seconds, dates integer day numbers, and the
serialized series an opaque value of type `α`. -/

/-- One row of the cache table. -/
structure CacheEntry (α : Type) where
  data : α
  cached_at : ℚ

/-- The cache table: key = (symbol, timeframe, fetch_date). -/
abbrev CacheStore (α : Type) := List ((String × String × ℤ) × CacheEntry α)

/-- data_fetcher.py lines 46-82, `get_cached_data` at clock time `now`: the
row for the key is returned only when `cached_at > now - ttl_seconds`. -/
def get_cached_data (store : CacheStore α) (symbol timeframe : String)
    (target_date : ℤ) (ttl_seconds : ℚ) (now : ℚ) : Option α :=
  let cutoff := now - ttl_seconds
  match store.find? (fun r => r.1 = (symbol, timeframe, target_date)) with
  | some r => if r.2.cached_at > cutoff then some r.2.data else none
  | none => none

/-- data_fetcher.py lines 85-110, `cache_data` at clock time `now`:
`INSERT OR REPLACE` — last write wins for the key. -/
def cache_data (store : CacheStore α) (symbol timeframe : String)
    (target_date : ℤ) (df : α) (now : ℚ) : CacheStore α :=
  ((symbol, timeframe, target_date), ⟨df, now⟩) ::
    store.filter (fun r => ¬ (r.1 = (symbol, timeframe, target_date)))

/-!  ## Pipeline orchestrator (src/graph.py)  -/

/-- One merged trade-candidate record built at graph.py lines 249-255
(`{**setup, **evaluation, **risk_metrics}`, kept here as its three parts). -/
structure Candidate where
  setup : Setup
  evaluation : Evaluation
  metrics : RiskMetrics

/-- graph.py `AgentState`, restricted to the pipeline fields; scan id,
timestamps and the persistence / notification payloads are opaque to the
claims and not modelled. -/
structure AgentState where
  «universe» : List String := []
  market_data : List (String × Df) := []
  detected_setups : List Setup := []
  evaluated_setups : List Evaluation := []
  trade_candidates : List Candidate := []
  errors : List String := []

/-- graph.py lines 61-69, `initialize_scan` (the fresh scan id and timestamp
are not modelled). -/
def initialize_scan (state : AgentState) : AgentState :=
  { state with errors := [] }

/-- graph.py lines 168-181, `should_evaluate`. -/
def should_evaluate (state : AgentState) : String :=
  if ¬ state.detected_setups.isEmpty then "evaluate" else "skip"

/-- graph.py lines 291-299, `skip_evaluation_node`. -/
def skip_evaluation_node (state : AgentState) : AgentState :=
  { state with evaluated_setups := [], trade_candidates := [] }

/-- graph.py lines 222-227: find the detected setup matching an evaluation. -/
def find_matching_setup (setups : List Setup) (symbol setup_type : String) :
    Option Setup :=
  setups.find? (fun s => s.symbol == symbol && s.setup_type == setup_type)

/-- graph.py lines 213-265, `calculate_risk_node`: for every evaluation with
a matching setup and market data, compute the risk metrics and append the
merged candidate; nothing filters the computed plan. -/
def calculate_risk_node (state : AgentState) : AgentState :=
  let trade_candidates := state.evaluated_setups.foldl (fun acc evaluation =>
    match find_matching_setup state.detected_setups evaluation.symbol
        evaluation.setup_type with
    | none => acc
    | some setup =>
      match state.market_data.find? (fun p => p.1 == evaluation.symbol) with
      | none => acc
      | some p =>
        let risk_metrics :=
          calculate_risk_metrics evaluation.symbol setup evaluation p.2 none
        acc ++ [{ setup := setup, evaluation := evaluation, metrics := risk_metrics }]) []
  { state with trade_candidates := trade_candidates }

/-- The stage implementations that do external work (network, indicators
library, LLM, database, webhooks), abstracted as state transformers; the
branch, the skip node and the risk node are the concrete embeddings. -/
structure NodeImpls where
  universe_node : AgentState → AgentState
  fetcher_node : AgentState → AgentState
  indicators_node : AgentState → AgentState
  detector_node : AgentState → AgentState
  evaluator_node : AgentState → AgentState
  persister_node : AgentState → AgentState
  notifier_node : AgentState → AgentState

/-- graph.py lines 332-357: the unconditional edges added in
`create_agent_graph`. -/
def graph_edges : List (String × String) :=
  [("START", "initialize"), ("initialize", "universe"), ("universe", "fetcher"),
   ("fetcher", "indicators"), ("indicators", "detector"),
   ("evaluator", "risk"), ("risk", "persister"),
   ("skip_eval", "persister"),
   ("persister", "notifier"), ("notifier", "END")]

/-- graph.py lines 339-346: the conditional routing table after `detector`. -/
def conditional_edges : List (String × String) :=
  [("evaluate", "evaluator"), ("skip", "skip_eval")]

/-- The successor of a node: after `detector` the graph routes through
`should_evaluate`, elsewhere through the plain edge list. -/
def next_node (node : String) (state : AgentState) : Option String :=
  if node == "detector" then
    (conditional_edges.find? (fun p => p.1 == should_evaluate state)).map Prod.snd
  else
    (graph_edges.find? (fun p => p.1 == node)).map Prod.snd

/-- graph.py lines 320-329: what each named node does when executed. -/
def apply_node (impls : NodeImpls) (node : String) (s : AgentState) : AgentState :=
  if node == "initialize" then initialize_scan s
  else if node == "universe" then impls.universe_node s
  else if node == "fetcher" then impls.fetcher_node s
  else if node == "indicators" then impls.indicators_node s
  else if node == "detector" then impls.detector_node s
  else if node == "evaluator" then impls.evaluator_node s
  else if node == "risk" then calculate_risk_node s
  else if node == "skip_eval" then skip_evaluation_node s
  else if node == "persister" then impls.persister_node s
  else if node == "notifier" then impls.notifier_node s
  else s

/-- Run the compiled graph from `node`, returning the final state and the
list of nodes executed, with fuel bounding the walk. -/
def execute_from (impls : NodeImpls) : Nat → String → AgentState →
    AgentState × List String
  | 0, _, s => (s, [])
  | fuel + 1, node, s =>
    if node == "END" then (s, [])
    else
      let s' := apply_node impls node s
      match next_node node s' with
      | none => (s', [node])
      | some nxt =>
        let r := execute_from impls fuel nxt s'
        (r.1, node :: r.2)

/-- graph.py `run_scan`: one full walk of the graph from START (12 units of
fuel cover the ten nodes and END). -/
def run_graph (impls : NodeImpls) (s : AgentState) : AgentState × List String :=
  execute_from impls 12 "START" s

/-!  ## Concrete fixtures used by the theorems  -/

/-- A dataframe whose latest ATR value is 2.5 (the risk-engine worked
example: stop-loss 100 − 2 × 2.5 = 95). -/
def df_atr_2_5 : Df :=
  { Open := [100], High := [100], Low := [100], Close := [100], Volume := [1],
    EMA := fun _ => none, ATR_14 := some [5/2] }

/-- A dataframe with no ATR column and one bar at price −100. -/
def df_no_atr : Df :=
  { Open := [-100], High := [-100], Low := [-100], Close := [-100], Volume := [1],
    EMA := fun _ => none }

/-- A detected setup whose current price makes the computed risk plan
degenerate (entry midpoint −100 against stop-loss −98). -/
def degenerate_setup : Setup :=
  { symbol := "X.NS", setup_type := "CONSOLIDATION", timeframe := "1d",
    current_price := -100 }

/-- A pipeline state holding one evaluated setup whose computed plan is
degenerate. -/
def degenerate_state : AgentState :=
  { detected_setups := [degenerate_setup],
    evaluated_setups := [⟨"X.NS", "CONSOLIDATION"⟩],
    market_data := [("X.NS", df_no_atr)] }

/-- 50 bars of flat raw OHLCV data (no indicator columns) whose last close
breaks above the flat consolidation window. -/
def raw_ohlcv_df : Df :=
  { Open := List.replicate 50 100,
    High := List.replicate 49 100 ++ [101],
    Low := List.replicate 49 100 ++ [101],
    Close := List.replicate 49 100 ++ [101],
    Volume := List.replicate 50 1,
    EMA := fun _ => none }

/-- A dataframe whose latest volume ratio is negative while the EMA, RSI and
MACD-histogram columns are all present. -/
def negative_volume_df : Df :=
  { Open := [100], High := [100], Low := [100], Close := [100], Volume := [-5],
    EMA := fun p =>
      if p = 20 then some [1] else if p = 50 then some [2]
      else if p = 200 then some [3] else none,
    RSI_14 := some [0], MACD_histogram := some [-1], Volume_Ratio := some [-1] }

/-- A BREAKOUT setup at price 100 (the risk-engine worked example). -/
def breakout_setup_100 : Setup :=
  { symbol := "X.NS", setup_type := "BREAKOUT", timeframe := "1d",
    current_price := 100 }

/-!  ## Claims  -/

/-- C3: with the default configuration, entry 100 and stop-loss 95 give
targets 110 and 115 and reward:risk 2.0 (the dataframe's latest ATR of 2.5
produces exactly that stop); and account 1,000,000 with risk-per-share 5
gives a raw position size of 4000 shares before the max-position cap. -/
theorem risk_defaults_concrete :
    calculate_targets 100 95 = [110, 115] ∧
    (calculate_risk_metrics "X.NS" breakout_setup_100 ⟨"X.NS", "BREAKOUT"⟩
        df_atr_2_5 none).target_1 = 110 ∧
    (calculate_risk_metrics "X.NS" breakout_setup_100 ⟨"X.NS", "BREAKOUT"⟩
        df_atr_2_5 none).target_2 = 115 ∧
    (calculate_risk_metrics "X.NS" breakout_setup_100 ⟨"X.NS", "BREAKOUT"⟩
        df_atr_2_5 none).risk_reward_ratio = 2 ∧
    position_size_before_cap 1000000 100 95 = 4000 := by
  norm_num [calculate_targets, calculate_risk_metrics, calculate_stop_loss,
    calculate_entry_range, calculate_position_size, position_size_before_cap,
    RISK_CONFIG, breakout_setup_100, df_atr_2_5, lastD]

/-- C4: whenever the ATR column is present the stop-loss implies a stop
distance within [2%, 8%] of a positive entry price, and when it is absent
the stop-loss is exactly entry × (1 − 2/100). -/
theorem stop_loss_bounds (df : Df) (entry_price : ℚ) (hpos : 0 < entry_price) :
    (df.ATR_14.isSome = true →
      2 ≤ ((entry_price - calculate_stop_loss df entry_price) / entry_price) * 100 ∧
      ((entry_price - calculate_stop_loss df entry_price) / entry_price) * 100 ≤ 8) ∧
    (df.ATR_14 = none →
      calculate_stop_loss df entry_price = entry_price * (1 - 2 / 100)) := by
  have hne : entry_price ≠ 0 := ne_of_gt hpos
  have e2 : ((entry_price - entry_price * (1 - 2 / 100)) / entry_price) * 100 = 2 := by
    field_simp
    ring
  have e8 : ((entry_price - entry_price * (1 - 8 / 100)) / entry_price) * 100 = 8 := by
    field_simp
    ring
  constructor
  · intro hsome
    obtain ⟨atr_col, hcol⟩ := Option.isSome_iff_exists.mp hsome
    simp only [calculate_stop_loss, hcol, RISK_CONFIG]
    split_ifs with h1 h2
    · rw [e2]
      norm_num
    · rw [e8]
      norm_num
    · push_neg at h1 h2
      exact ⟨h1, h2⟩
  · intro hnone
    simp only [calculate_stop_loss, hnone, RISK_CONFIG]

/-- C4 witness: at entry 100 with latest ATR 2.5 the stop distance is 5%,
inside [2%, 8%]; without the ATR column the stop is 98. -/
theorem stop_loss_bounds_witness :
    (0 : ℚ) < 100 ∧
    ((df_atr_2_5.ATR_14.isSome = true →
        2 ≤ ((100 - calculate_stop_loss df_atr_2_5 100) / 100) * 100 ∧
        ((100 - calculate_stop_loss df_atr_2_5 100) / 100) * 100 ≤ 8) ∧
      (df_atr_2_5.ATR_14 = none →
        calculate_stop_loss df_atr_2_5 100 = 100 * (1 - 2 / 100))) :=
  ⟨by norm_num, stop_loss_bounds df_atr_2_5 100 (by norm_num)⟩

/-- C5: a non-positive risk (entry midpoint − stop-loss ≤ 0) yields a
reward:risk ratio defined as 0, and a non-positive risk-per-share makes
`calculate_position_size` return position size 0 and value 0. -/
theorem degenerate_risk_zeroed (symbol : String) (setup : Setup)
    (ev : Evaluation) (df : Df) (account_size : Option ℚ)
    (h : (calculate_risk_metrics symbol setup ev df account_size).entry_mid -
         (calculate_risk_metrics symbol setup ev df account_size).stop_loss ≤ 0) :
    (calculate_risk_metrics symbol setup ev df account_size).risk_reward_ratio = 0 ∧
    ∀ a e s : ℚ, e - s ≤ 0 → calculate_position_size a e s = (0, 0) := by
  constructor
  · simp only [calculate_risk_metrics] at h ⊢
    rw [if_neg (not_lt.mpr h)]
  · intro a e s hle
    simp only [calculate_position_size]
    rw [if_pos hle]

/-- C5 witness: the degenerate setup at price −100 has risk −2 ≤ 0, ratio 0,
and calculate_position_size 1000000 90 95 = (0, 0). -/
theorem degenerate_risk_zeroed_witness :
    ((calculate_risk_metrics "X.NS" degenerate_setup ⟨"X.NS", "CONSOLIDATION"⟩
        df_no_atr none).entry_mid -
      (calculate_risk_metrics "X.NS" degenerate_setup ⟨"X.NS", "CONSOLIDATION"⟩
        df_no_atr none).stop_loss ≤ 0) ∧
    (calculate_risk_metrics "X.NS" degenerate_setup ⟨"X.NS", "CONSOLIDATION"⟩
        df_no_atr none).risk_reward_ratio = 0 ∧
    ∀ a e s : ℚ, e - s ≤ 0 → calculate_position_size a e s = (0, 0) :=
  ⟨by norm_num [calculate_risk_metrics, calculate_stop_loss, calculate_entry_range,
      calculate_targets, calculate_position_size, RISK_CONFIG, degenerate_setup,
      df_no_atr, lastD],
   degenerate_risk_zeroed "X.NS" degenerate_setup ⟨"X.NS", "CONSOLIDATION"⟩
     df_no_atr none
     (by norm_num [calculate_risk_metrics, calculate_stop_loss, calculate_entry_range,
        calculate_targets, calculate_position_size, RISK_CONFIG, degenerate_setup,
        df_no_atr, lastD])⟩

/-- C2 (evidence of the code bug): the risk stage appends a trade candidate
whose computed plan is degenerate — its entry midpoint does not exceed its
stop-loss, its position size is 0, and its reward:risk ratio fails the
repository's own (never invoked) `validate_risk_reward` — so degenerate
plans are not rejected. -/
theorem risk_node_emits_degenerate_plan :
    ((calculate_risk_node degenerate_state).trade_candidates.map
        (fun c => (c.metrics.entry_mid, c.metrics.stop_loss,
                   c.metrics.position_size,
                   validate_risk_reward c.metrics.risk_reward_ratio))) =
      [(-100, -98, 0, false)] ∧
    ((-100 : ℚ) ≤ -98) := by
  constructor
  · norm_num [calculate_risk_node, degenerate_state, degenerate_setup, df_no_atr,
      find_matching_setup, calculate_risk_metrics, calculate_stop_loss,
      calculate_entry_range, calculate_targets, calculate_position_size,
      RISK_CONFIG, lastD, validate_risk_reward]
  · norm_num

/-- When every attempt of an adapter fails, the retry loop entered at
`attempt ≤ max_retries` makes the remaining `max_retries - attempt` calls
and sleeps `retry_delay * backoff ^ i` after each failed attempt `i` except
the last. -/
theorem retry_loop_all_fail {α : Type} (fetch : Nat → Option α)
    (h : ∀ i, fetch i = none) (max_retries : Nat) (d b : ℚ) :
    ∀ n attempt, max_retries - attempt = n → attempt ≤ max_retries →
      retry_loop fetch max_retries d b attempt =
        ⟨none, max_retries - attempt,
         (List.range' attempt (max_retries - 1 - attempt)).map (fun i => d * b ^ i)⟩ := by
  intro n
  induction n with
  | zero =>
    intro attempt h0 hle
    have ha : attempt = max_retries := by omega
    subst ha
    rw [retry_loop]
    simp [Nat.sub_self]
  | succ n ih =>
    intro attempt h0 hle
    have hlt : attempt < max_retries := by omega
    rw [retry_loop, if_pos hlt, h attempt]
    rw [ih (attempt + 1) (by omega) (by omega)]
    by_cases hlast : attempt < max_retries - 1
    · rw [if_pos hlast]
      have hatt : max_retries - (attempt + 1) + 1 = max_retries - attempt := by omega
      have hr : max_retries - 1 - attempt = (max_retries - 1 - (attempt + 1)) + 1 := by
        omega
      rw [hatt, hr, List.range'_succ, List.map_cons]
    · rw [if_neg hlast]
      have h1 : max_retries - (attempt + 1) = 0 := by omega
      have h2 : max_retries - 1 - (attempt + 1) = 0 := by omega
      have h3 : max_retries - 1 - attempt = 0 := by omega
      have h4 : max_retries - attempt = 1 := by omega
      simp only [h1, h2, h3, h4]
      rfl

/-- C1: on a cache miss (or with caching disabled), if the primary adapter
fails on every attempt then: when the fallback succeeds, the coordinator
returns the fallback's series tagged with the fallback provenance
("yfinance") after exactly `max_retries` primary attempts separated by
sleeps `retry_delay * backoff ^ i` (none after the last); and when the
fallback also always fails, it returns the absent result (`none`, "none")
after `max_retries` fallback attempts as well. -/
theorem fetch_fallback_after_retries {α : Type} (cached : Option α)
    (use_cache : Bool) (primary fallback : Nat → Option α)
    (max_retries : Nat) (d b : ℚ)
    (hcache : use_cache = false ∨ cached = none)
    (hmr : 0 < max_retries)
    (hp : ∀ i, primary i = none) :
    (∀ df, fallback 0 = some df →
      fetch_market_data cached use_cache primary fallback max_retries d b =
        { result := some df, source := "yfinance",
          primary := ⟨none, max_retries,
            (List.range (max_retries - 1)).map (fun i => d * b ^ i)⟩,
          fallback := ⟨some df, 1, []⟩ }) ∧
    ((∀ i, fallback i = none) →
      fetch_market_data cached use_cache primary fallback max_retries d b =
        { result := none, source := "none",
          primary := ⟨none, max_retries,
            (List.range (max_retries - 1)).map (fun i => d * b ^ i)⟩,
          fallback := ⟨none, max_retries,
            (List.range (max_retries - 1)).map (fun i => d * b ^ i)⟩ }) := by
  have hnone : (if use_cache then cached else none) = none := by
    rcases hcache with hc | hc <;> simp [hc]
  have hprim : retry_loop primary max_retries d b 0 =
      ⟨none, max_retries, (List.range (max_retries - 1)).map (fun i => d * b ^ i)⟩ := by
    rw [retry_loop_all_fail primary hp max_retries d b (max_retries - 0) 0 rfl
      (Nat.zero_le _)]
    rw [List.range_eq_range']
    simp
  constructor
  · intro df hdf
    have hfall : retry_loop fallback max_retries d b 0 = ⟨some df, 1, []⟩ := by
      rw [retry_loop, if_pos hmr, hdf]
    simp only [fetch_market_data, hnone, hprim, hfall]
  · intro hf
    have hfall : retry_loop fallback max_retries d b 0 =
        ⟨none, max_retries, (List.range (max_retries - 1)).map (fun i => d * b ^ i)⟩ := by
      rw [retry_loop_all_fail fallback hf max_retries d b (max_retries - 0) 0 rfl
        (Nat.zero_le _)]
      rw [List.range_eq_range']
      simp
    simp only [fetch_market_data, hnone, hprim, hfall]

/-- C1 witness: with the default retry policy (3 retries, delay 2,
backoff 2), an always-failing primary and a fallback succeeding at once,
the outcome is the fallback value tagged "yfinance" after 3 primary
attempts with sleeps 2 and 4; with both always failing the outcome is
(`none`, "none"). -/
theorem fetch_fallback_after_retries_witness :
    fetch_market_data (none : Option ℚ) true (fun _ => none) (fun _ => some 42) 3 2 2 =
      { result := some 42, source := "yfinance",
        primary := ⟨none, 3, [2, 4]⟩, fallback := ⟨some 42, 1, []⟩ } ∧
    fetch_market_data (none : Option ℚ) true (fun _ => none) (fun _ => none) 3 2 2 =
      { result := none, source := "none",
        primary := ⟨none, 3, [2, 4]⟩, fallback := ⟨none, 3, [2, 4]⟩ } := by
  have h := fetch_fallback_after_retries (none : Option ℚ) true (fun _ => none)
    (fun _ => some 42) 3 2 2 (Or.inr rfl) (by norm_num) (fun _ => rfl)
  have h' := fetch_fallback_after_retries (none : Option ℚ) true (fun _ => none)
    (fun _ => none) 3 2 2 (Or.inr rfl) (by norm_num) (fun _ => rfl)
  constructor
  · have := h.1 42 rfl
    rw [this]
    norm_num [List.range_succ]
  · have := h'.2 (fun _ => rfl)
    rw [this]
    norm_num [List.range_succ]

/-- C8 counterexample: a TTL exactly equal to the elapsed time misses — the
series is cached at time 0 and read at time 10 with TTL 10, yet the read
returns absent because the query requires `cached_at > now − ttl` strictly. -/
theorem cache_ttl_boundary_misses :
    get_cached_data (cache_data ([] : CacheStore ℚ) "RELIANCE.NS" "1d" 0 42 0)
      "RELIANCE.NS" "1d" 0 10 10 = none := by
  norm_num [get_cached_data, cache_data, List.find?]

/-- C8 amended: a put followed by a get with the same key returns exactly
the stored series when the TTL strictly exceeds the elapsed time, and a get
with TTL 0 always misses (for any store whose rows were written at or
before the reading clock time). -/
theorem cache_round_trip_strict {α : Type} :
    (∀ (store : CacheStore α) (symbol timeframe : String) (target_date : ℤ)
        (df : α) (t_put t_get ttl : ℚ), t_get - t_put < ttl →
        get_cached_data (cache_data store symbol timeframe target_date df t_put)
          symbol timeframe target_date ttl t_get = some df) ∧
    (∀ (store : CacheStore α) (symbol timeframe : String) (target_date : ℤ)
        (now : ℚ), (∀ r ∈ store, r.2.cached_at ≤ now) →
        get_cached_data store symbol timeframe target_date 0 now = none) := by
  constructor
  · intro store symbol timeframe target_date df t_put t_get ttl h
    simp only [get_cached_data, cache_data]
    rw [List.find?_cons_of_pos _ (by simp)]
    dsimp only
    rw [if_pos (by linarith)]
  · intro store symbol timeframe target_date now h
    simp only [get_cached_data]
    cases hfind : store.find? (fun r => decide (r.1 = (symbol, timeframe, target_date))) with
    | none => rfl
    | some r =>
      have hmem := List.mem_of_find?_eq_some hfind
      have hle := h r hmem
      dsimp only
      rw [if_neg (by simp only [sub_zero, gt_iff_lt, not_lt]; exact hle)]

/-- C8 witness: with TTL 11 > elapsed 10 the round trip returns the stored
series, and a TTL-0 read of a store written at time 3 and read at time 5
misses. -/
theorem cache_round_trip_strict_witness :
    get_cached_data (cache_data ([] : CacheStore ℚ) "RELIANCE.NS" "1d" 0 42 0)
      "RELIANCE.NS" "1d" 0 11 10 = some 42 ∧
    get_cached_data ([(("A", "1d", 0), ⟨7, 3⟩)] : CacheStore ℚ) "A" "1d" 0 0 5 = none := by
  constructor
  · exact (cache_round_trip_strict (α := ℚ)).1 [] "RELIANCE.NS" "1d" 0 42 0 10 11
      (by norm_num)
  · refine (cache_round_trip_strict (α := ℚ)).2 _ "A" "1d" 0 5 ?_
    intro r hr
    simp only [List.mem_singleton] at hr
    subst hr
    norm_num

/-- C6: when the detector stage leaves `detected_setups` empty, the run
takes the skip branch: the walk is START → initialize → universe → fetcher
→ indicators → detector → skip_eval → persister → notifier (no evaluator
and no risk node), the state entering the persister has empty
`evaluated_setups` and `trade_candidates`, and the persister and notifier
still execute. -/
theorem empty_detection_takes_skip_branch (impls : NodeImpls) (s0 : AgentState)
    (h : (impls.detector_node (impls.indicators_node (impls.fetcher_node
          (impls.universe_node (initialize_scan s0))))).detected_setups = []) :
    run_graph impls s0 =
      (impls.notifier_node (impls.persister_node (skip_evaluation_node
        (impls.detector_node (impls.indicators_node (impls.fetcher_node
          (impls.universe_node (initialize_scan s0))))))),
       ["START", "initialize", "universe", "fetcher", "indicators", "detector",
        "skip_eval", "persister", "notifier"]) ∧
    (skip_evaluation_node (impls.detector_node (impls.indicators_node
      (impls.fetcher_node (impls.universe_node
        (initialize_scan s0)))))).evaluated_setups = [] ∧
    (skip_evaluation_node (impls.detector_node (impls.indicators_node
      (impls.fetcher_node (impls.universe_node
        (initialize_scan s0)))))).trade_candidates = [] := by
  refine ⟨?_, rfl, rfl⟩
  have hsd : should_evaluate (impls.detector_node (impls.indicators_node
      (impls.fetcher_node (impls.universe_node (initialize_scan s0))))) = "skip" := by
    simp [should_evaluate, h]
  have pre : run_graph impls s0 =
      ((execute_from impls 7 "detector" (impls.indicators_node (impls.fetcher_node
          (impls.universe_node (initialize_scan s0))))).1,
        "START" :: "initialize" :: "universe" :: "fetcher" :: "indicators" ::
        (execute_from impls 7 "detector" (impls.indicators_node (impls.fetcher_node
          (impls.universe_node (initialize_scan s0))))).2) := rfl
  have hnn : next_node "detector" (apply_node impls "detector"
      (impls.indicators_node (impls.fetcher_node
        (impls.universe_node (initialize_scan s0))))) = some "skip_eval" := by
    show next_node "detector" (impls.detector_node (impls.indicators_node
      (impls.fetcher_node (impls.universe_node (initialize_scan s0))))) = some "skip_eval"
    unfold next_node
    rw [hsd]
    rfl
  have det : execute_from impls 7 "detector" (impls.indicators_node (impls.fetcher_node
        (impls.universe_node (initialize_scan s0)))) =
      ((execute_from impls 6 "skip_eval" (impls.detector_node (impls.indicators_node
          (impls.fetcher_node (impls.universe_node (initialize_scan s0)))))).1,
        "detector" :: (execute_from impls 6 "skip_eval" (impls.detector_node
          (impls.indicators_node (impls.fetcher_node
            (impls.universe_node (initialize_scan s0)))))).2) := by
    rw [execute_from]
    rw [if_neg (by decide)]
    dsimp only
    rw [hnn]
    rfl
  have post : execute_from impls 6 "skip_eval" (impls.detector_node
      (impls.indicators_node (impls.fetcher_node
        (impls.universe_node (initialize_scan s0))))) =
      (impls.notifier_node (impls.persister_node (skip_evaluation_node
        (impls.detector_node (impls.indicators_node (impls.fetcher_node
          (impls.universe_node (initialize_scan s0))))))),
       ["skip_eval", "persister", "notifier"]) := rfl
  rw [pre, det, post]

/-- C6 witness: with identity stage implementations and the empty initial
state the detector output is empty and the skip path runs. -/
theorem empty_detection_takes_skip_branch_witness :
    (run_graph ⟨id, id, id, id, id, id, id⟩ {} =
      (id (id (skip_evaluation_node (id (id (id (id (initialize_scan
        ({} : AgentState)))))))),
       ["START", "initialize", "universe", "fetcher", "indicators", "detector",
        "skip_eval", "persister", "notifier"]) ∧
    (skip_evaluation_node (id (id (id (id (initialize_scan
      ({} : AgentState))))))).evaluated_setups = [] ∧
    (skip_evaluation_node (id (id (id (id (initialize_scan
      ({} : AgentState))))))).trade_candidates = []) :=
  empty_detection_takes_skip_branch ⟨id, id, id, id, id, id, id⟩ {} rfl

/-- `df.tail(n).iloc[-k]` equals `df.iloc[-k]` when `k ≤ n ≤ len(df)`. -/
theorem ilocNeg_pyTail (xs : List ℚ) (n k : Nat) (hk : k ≤ n) (hn : n ≤ xs.length) :
    ilocNeg (pyTail xs n) k = ilocNeg xs k := by
  unfold ilocNeg pyTail
  rw [List.getD_eq_getElem?_getD, List.getD_eq_getElem?_getD, List.getElem?_drop,
    List.length_drop]
  congr 2
  omega

/-- C7: with the EMA-50 column present (positive latest value, at least 5
rows), detect_pullback fires exactly when the close is within ±2% of EMA50,
the close 5 bars from the end exceeds the close 2 bars from the end, and the
latest low is at most 1% above EMA50; any setup it returns has trigger price
equal to the EMA50 value. -/
theorem detect_pullback_iff (symbol timeframe : String) (df : Df) (ema_col : List ℚ)
    (hema : df.EMA 50 = some ema_col)
    (hpos : 0 < lastD ema_col)
    (hlen : 5 ≤ df.Close.length) :
    ((detect_pullback symbol df timeframe).isSome = true ↔
      (|lastD df.Close - lastD ema_col| / lastD ema_col * 100 ≤ 2 ∧
       df.Close.getD (df.Close.length - 2) 0 < df.Close.getD (df.Close.length - 5) 0 ∧
       lastD df.Low ≤ lastD ema_col * (101 / 100))) ∧
    (∀ s, detect_pullback symbol df timeframe = some s →
      s.trigger_price = lastD ema_col) := by
  have habs : |lastD df.Close - lastD ema_col| / lastD ema_col * 100 =
      |(lastD df.Close - lastD ema_col) / lastD ema_col * 100| := by
    rw [abs_mul, abs_div, abs_of_pos hpos]
    norm_num
  have hi2 : ilocNeg (pyTail df.Close 5) 2 = df.Close.getD (df.Close.length - 2) 0 :=
    ilocNeg_pyTail df.Close 5 2 (by norm_num) hlen
  have hi5 : ilocNeg (pyTail df.Close 5) 5 = df.Close.getD (df.Close.length - 5) 0 :=
    ilocNeg_pyTail df.Close 5 5 (by norm_num) hlen
  constructor
  · rw [habs, abs_le]
    simp only [detect_pullback, INDICATORS, hema, SETUP_RULES, hi2, hi5]
    split_ifs with h1 h2 h3
    · exact iff_of_false (by simp) (fun hc => absurd hc.2.2 (not_le.mpr h3))
    · exact iff_of_true (by simp) ⟨h1, h2, not_lt.mp h3⟩
    · exact iff_of_false (by simp) (fun hc => absurd hc.2.1 h2)
    · exact iff_of_false (by simp) (fun hc => absurd hc.1 h1)
  · intro s hs
    simp only [detect_pullback, INDICATORS, hema, SETUP_RULES] at hs
    split_ifs at hs <;>
      first
        | exact Option.noConfusion hs
        | rw [← Option.some.inj hs]

/-- Five bars around EMA50 = 100: close back at the average after a dip,
with the last low touching the band. -/
def pullback_df : Df :=
  { Open := [100, 100, 100, 100, 100], High := [105, 105, 105, 105, 105],
    Low := [95, 96, 97, 98, 99], Close := [105, 96, 97, 98, 100],
    Volume := [1, 1, 1, 1, 1],
    EMA := fun p => if p = 50 then some [100] else none }

/-- C7 witness: on `pullback_df` all three conditions hold and the detector
fires. -/
theorem detect_pullback_iff_witness :
    (detect_pullback "X.NS" pullback_df "1d").isSome = true := by
  have h := detect_pullback_iff "X.NS" "1d" pullback_df [100] rfl
    (by norm_num [lastD]) (by norm_num [pullback_df])
  refine h.1.mpr ?_
  norm_num [pullback_df, lastD, List.getD_eq_getElem?_getD]

/-- C9: a dataframe lacking the EMA, RSI, ATR-percent and volume-ratio
columns passes every baseline filter; and on 50 rows of raw OHLCV with no
indicator columns, detect_setups still emits a CONSOLIDATION setup (the
volume-confirmation check of detect_consolidation_breakout is skipped when
Volume_Ratio is absent). -/
theorem baseline_filters_skip_absent (df : Df)
    (h50 : df.EMA 50 = none) (h200 : df.EMA 200 = none)
    (hrsi : df.RSI_14 = none) (hatrp : df.ATR_Percent = none)
    (hvr : df.Volume_Ratio = none) :
    (check_baseline_filters df).passed = true ∧
    (detect_setups "X.NS" raw_ohlcv_df "1d").map (fun s => s.setup_type) =
      [SetupType.CONSOLIDATION] := by
  constructor
  · rcases hatr : df.ATR_14 with _ | atr_col <;>
      simp [check_baseline_filters, SETUP_RULES, h50, h200, hrsi, hatrp, hvr, hatr]
  · norm_num [detect_setups, check_baseline_filters, detect_breakout, detect_pullback,
      detect_momentum, detect_consolidation_breakout, calculate_setup_score,
      raw_ohlcv_df, SETUP_RULES, INDICATORS, lastD, ilocNeg, pyTail, pyMax, pyMin,
      countTrue, SetupType.CONSOLIDATION, List.getLastD, List.replicate]

/-- C9 witness: `raw_ohlcv_df` itself lacks every indicator column, passes
the baseline filters, and yields the CONSOLIDATION setup. -/
theorem baseline_filters_skip_absent_witness :
    (check_baseline_filters raw_ohlcv_df).passed = true ∧
    (detect_setups "X.NS" raw_ohlcv_df "1d").map (fun s => s.setup_type) =
      [SetupType.CONSOLIDATION] :=
  baseline_filters_skip_absent raw_ohlcv_df rfl rfl rfl rfl rfl

/-- The volume bonus step of `calculate_setup_score` never lowers the score
when the latest volume ratio is non-negative. -/
theorem score_vol_le (df : Df) (q : ℚ)
    (hv : ∀ vr_col, df.Volume_Ratio = some vr_col → 0 ≤ lastD vr_col) :
    q ≤ (match df.Volume_Ratio with
         | some vr_col => q + min (lastD vr_col * 10) 20
         | none => q) := by
  rcases hvc : df.Volume_Ratio with _ | vr_col
  · exact le_refl q
  · have h0 := hv vr_col hvc
    have hmin : (0 : ℚ) ≤ min (lastD vr_col * 10) 20 :=
      le_min (mul_nonneg h0 (by norm_num)) (by norm_num)
    exact le_add_of_nonneg_right hmin

/-- The EMA-stacking bonus step of `calculate_setup_score` never lowers the
score. -/
theorem score_ema_le (df : Df) (q : ℚ) :
    q ≤ (match df.EMA INDICATORS.ema_short, df.EMA INDICATORS.ema_medium,
        df.EMA INDICATORS.ema_long with
      | some e20, some e50, some e200 =>
        if lastD e20 > lastD e50 ∧ lastD e50 > lastD e200 then q + 20
        else if lastD e20 > lastD e50 then q + 10
        else q
      | _, _, _ => q) := by
  rcases df.EMA INDICATORS.ema_short with _ | e20 <;>
    rcases df.EMA INDICATORS.ema_medium with _ | e50 <;>
    rcases df.EMA INDICATORS.ema_long with _ | e200 <;>
    dsimp only <;> try exact le_refl q
  split_ifs
  · exact le_add_of_nonneg_right (by norm_num)
  · exact le_add_of_nonneg_right (by norm_num)
  · exact le_refl q

/-- The RSI bonus step of `calculate_setup_score` never lowers the score. -/
theorem score_rsi_le (df : Df) (q : ℚ) :
    q ≤ (match df.RSI_14 with
      | some rsi_col =>
        let rsi := lastD rsi_col
        if 60 ≤ rsi ∧ rsi ≤ 70 then q + 10
        else if 55 ≤ rsi ∧ rsi ≤ 75 then q + 5
        else q
      | none => q) := by
  rcases df.RSI_14 with _ | rsi_col <;> dsimp only
  · exact le_refl q
  · split_ifs
    · exact le_add_of_nonneg_right (by norm_num)
    · exact le_add_of_nonneg_right (by norm_num)
    · exact le_refl q

/-- The MACD bonus step of `calculate_setup_score` never lowers the score. -/
theorem score_macd_le (df : Df) (q : ℚ) :
    q ≤ (match df.MACD_histogram with
      | some mh_col => if lastD mh_col > 0 then q + 10 else q
      | none => q) := by
  rcases df.MACD_histogram with _ | mh_col <;> dsimp only
  · exact le_refl q
  · split_ifs
    · exact le_add_of_nonneg_right (by norm_num)
    · exact le_refl q

/-- C10 amended: when the latest volume-ratio value is non-negative (or the
column is absent) the preliminary score lies in [50, 100]: the base is 50,
every bonus is then non-negative (volume capped at 20, EMA stacking at 20,
RSI at 10, MACD at 10), and the total is capped at 100. -/
theorem setup_score_bounds (df : Df) (setup_type : String)
    (hv : ∀ vr_col, df.Volume_Ratio = some vr_col → 0 ≤ lastD vr_col) :
    50 ≤ calculate_setup_score df setup_type ∧
    calculate_setup_score df setup_type ≤ 100 := by
  constructor
  · unfold calculate_setup_score
    refine le_min ?_ (by norm_num)
    exact le_trans (le_trans (le_trans (score_vol_le df 50 hv)
      (score_ema_le df _)) (score_rsi_le df _)) (score_macd_le df _)
  · unfold calculate_setup_score
    exact min_le_right _ _

/-- C10 witness: `raw_ohlcv_df` has no Volume_Ratio column, so its score
lies in [50, 100]. -/
theorem setup_score_bounds_witness :
    50 ≤ calculate_setup_score raw_ohlcv_df SetupType.BREAKOUT ∧
    calculate_setup_score raw_ohlcv_df SetupType.BREAKOUT ≤ 100 :=
  setup_score_bounds raw_ohlcv_df SetupType.BREAKOUT
    (fun vr_col hvr => by simp [raw_ohlcv_df] at hvr)

/-- C10 counterexample: with a negative latest volume ratio — while the
volume-ratio, EMA, RSI and MACD-histogram columns all carry (non-NaN)
values — the score drops to 40, below the claimed lower bound of 50. -/
theorem setup_score_below_base :
    calculate_setup_score negative_volume_df SetupType.BREAKOUT < 50 ∧
    negative_volume_df.Volume_Ratio.isSome = true ∧
    (negative_volume_df.EMA 20).isSome = true ∧
    (negative_volume_df.EMA 50).isSome = true ∧
    (negative_volume_df.EMA 200).isSome = true ∧
    negative_volume_df.RSI_14.isSome = true ∧
    negative_volume_df.MACD_histogram.isSome = true := by
  refine ⟨?_, rfl, rfl, rfl, rfl, rfl, rfl⟩
  have hval : calculate_setup_score negative_volume_df SetupType.BREAKOUT = 40 := by
    unfold calculate_setup_score negative_volume_df
    norm_num [lastD, INDICATORS]
  rw [hval]
  norm_num

end StockAgent
